import Mathlib

/-!
Verification of the statement table (`substrate/candidate-agreement/src/table.rs`).

The table accumulates signed statements validators issue about candidates
(proposal, validity vote, invalidity vote, availability vote), and records a
provable `Misbehavior` whenever a validator's statements contradict each other
or exceed its authority.

The Rust `HashMap`s are embedded as association lists with `mapGet`/`mapPut`
(lookup of the first matching key; insert replaces an existing binding in
place, otherwise appends), and the `HashSet` of availability votes as a list
with membership-guarded insertion `setPut`.  The one `.expect` (potential
panic) in `Table::import_candidate` is modelled by returning `Option`:
`none` is the panic.  Everything else is a direct transcription of the source.
-/

namespace StatementTable

/-- Finite-map lookup on an association list (models `HashMap::get` /
`Entry::Occupied` vs `Entry::Vacant` discrimination). -/
def mapGet {α β : Type} [DecidableEq α] : List (α × β) → α → Option β
  | [], _ => none
  | (k, v) :: rest, k' => if k' = k then some v else mapGet rest k'

/-- Finite-map insert on an association list: replaces an existing binding for
the key in place, otherwise appends (models `HashMap::insert` and
`Entry::Vacant::insert`). -/
def mapPut {α β : Type} [DecidableEq α] : List (α × β) → α → β → List (α × β)
  | [], k, v => [(k, v)]
  | (k0, v0) :: rest, k, v =>
      if k = k0 then (k, v) :: rest else (k0, v0) :: mapPut rest k v

/-- Finite-set insert on a list (models `HashSet::insert`). -/
def setPut {α : Type} [DecidableEq α] (l : List α) (v : α) : List α :=
  if v ∈ l then l else l ++ [v]

/-- Statements circulated among peers (`enum Statement`). -/
inductive Statement (Cand D : Type) : Type
  /-- Broadcast by a validator to indicate that this is his candidate for inclusion. -/
  | candidate : Cand → Statement Cand D
  /-- Broadcast by a validator to attest that the candidate with given digest is valid. -/
  | valid : D → Statement Cand D
  /-- Broadcast by a validator to attest that the auxiliary data for a candidate
  with given digest is available. -/
  | available : D → Statement Cand D
  /-- Broadcast by a validator to attest that the candidate with given digest is invalid. -/
  | invalid : D → Statement Cand D
  deriving DecidableEq

/-- A signed statement (`struct SignedStatement`). -/
structure SignedStatement (Cand D S : Type) : Type where
  statement : Statement Cand D
  signature : S
  deriving DecidableEq

/-- Context for the statement table (`trait Context`): the externally supplied
pure capabilities (digest and group derivation, membership predicates, signer
recovery). -/
structure Context (V D Cand G S : Type) : Type where
  candidate_digest : Cand → D
  candidate_group : Cand → G
  is_member_of : V → G → Bool
  is_availability_guarantor_of : V → G → Bool
  statement_signer : SignedStatement Cand D S → Option V

/-- Misbehavior: voting both ways on candidate validity
(`struct ValidityDoubleVote`). -/
structure ValidityDoubleVote (D S : Type) : Type where
  digest : D
  t_signature : S
  f_signature : S
  deriving DecidableEq

/-- Misbehavior: declaring multiple candidates (`struct MultipleCandidates`). -/
structure MultipleCandidates (Cand S : Type) : Type where
  first : Cand × S
  second : Cand × S
  deriving DecidableEq

/-- Misbehavior: submitted statement for wrong group
(`struct UnauthorizedStatement`). -/
structure UnauthorizedStatement (Cand D S : Type) : Type where
  statement : SignedStatement Cand D S
  deriving DecidableEq

/-- Different kinds of misbehavior (`enum Misbehavior`). -/
inductive Misbehavior (Cand D S : Type) : Type
  | validityDoubleVote : ValidityDoubleVote D S → Misbehavior Cand D S
  | multipleCandidates : MultipleCandidates Cand S → Misbehavior Cand D S
  | unauthorizedStatement : UnauthorizedStatement Cand D S → Misbehavior Cand D S
  deriving DecidableEq

/-- Votes on a specific candidate (`struct CandidateData`). -/
structure CandidateData (V D Cand G S : Type) : Type where
  group_id : G
  candidate : Cand
  validity_votes : List (V × (Bool × S))
  availability_votes : List V
  indicated_bad_by : List V
  deriving DecidableEq

/-- Stores votes (`struct Table`). -/
structure Table (V D Cand G S : Type) : Type where
  proposed_candidates : List (V × (D × S))
  detected_misbehavior : List (V × Misbehavior Cand D S)
  candidate_votes : List (D × CandidateData V D Cand G S)
  deriving DecidableEq

/-- Create a new, empty statement table (`fn create`). -/
def create (V D Cand G S : Type) : Table V D Cand G S :=
  { proposed_candidates := []
    detected_misbehavior := []
    candidate_votes := [] }

variable {V D Cand G S : Type} [DecidableEq V] [DecidableEq D]

/-- Rust `Table::import_candidate`.  Returns the mutated table and the detected
misbehavior, or `none` when the `.expect` on the equivocation path would
panic (the previously proposed digest has no `candidate_votes` entry). -/
def Table.import_candidate (t : Table V D Cand G S) (ctx : Context V D Cand G S)
    (frm : V) (c : Cand) (signature : S) :
    Option (Table V D Cand G S × Option (Misbehavior Cand D S)) :=
  if ctx.is_member_of frm (ctx.candidate_group c) then
    match mapGet t.proposed_candidates frm with
    | some old => -- Entry::Occupied
        if old.1 ≠ ctx.candidate_digest c then
          match mapGet t.candidate_votes old.1 with
          | none => none -- the .expect panics
          | some data =>
              some (t, some (.multipleCandidates
                { first := (data.candidate, old.2), second := (c, signature) }))
        else
          some (t, none)
    | none => -- Entry::Vacant
        some ({ t with
          proposed_candidates :=
            mapPut t.proposed_candidates frm (ctx.candidate_digest c, signature)
          candidate_votes :=
            match mapGet t.candidate_votes (ctx.candidate_digest c) with
            | some _ => t.candidate_votes -- or_insert_with: keep existing entry
            | none =>
                mapPut t.candidate_votes (ctx.candidate_digest c)
                  { group_id := ctx.candidate_group c
                    candidate := c
                    validity_votes := []
                    availability_votes := []
                    indicated_bad_by := [] } }, none)
  else
    some (t, some (.unauthorizedStatement
      { statement := { statement := .candidate c, signature := signature } }))

/-- Rust `Table::validity_vote`. -/
def Table.validity_vote (t : Table V D Cand G S) (ctx : Context V D Cand G S)
    (frm : V) (digest : D) (valid : Bool) (signature : S) :
    Table V D Cand G S × Option (Misbehavior Cand D S) :=
  match mapGet t.candidate_votes digest with
  | none => (t, none) -- TODO in source: queue up but don't get DoS'ed
  | some votes =>
      if ctx.is_member_of frm votes.group_id then
        match mapGet votes.validity_votes frm with
        | some occ => -- Entry::Occupied: check for double votes
            if occ.1 ≠ valid then
              (t, some (.validityDoubleVote
                { digest := digest
                  t_signature := if valid then signature else occ.2
                  f_signature := if valid then occ.2 else signature }))
            else
              (t, none)
        | none => -- Entry::Vacant
            ({ t with
                candidate_votes :=
                  mapPut t.candidate_votes digest
                    { votes with
                      validity_votes := mapPut votes.validity_votes frm (valid, signature)
                      indicated_bad_by := votes.indicated_bad_by ++ [frm] } }, none)
      else
        (t, some (.unauthorizedStatement
          { statement :=
            { statement := if valid then .valid digest else .invalid digest
              signature := signature } }))

/-- Rust `Table::availability_vote`. -/
def Table.availability_vote (t : Table V D Cand G S) (ctx : Context V D Cand G S)
    (frm : V) (digest : D) (signature : S) :
    Table V D Cand G S × Option (Misbehavior Cand D S) :=
  match mapGet t.candidate_votes digest with
  | none => (t, none) -- TODO in source: queue up but don't get DoS'ed
  | some votes =>
      if ctx.is_availability_guarantor_of frm votes.group_id then
        ({ t with
            candidate_votes :=
              mapPut t.candidate_votes digest
                { votes with
                  availability_votes := setPut votes.availability_votes frm } }, none)
      else
        (t, some (.unauthorizedStatement
          { statement := { statement := .available digest, signature := signature } }))

/-- The dispatch on the statement variant inside `Table::import_statement`
(the `match statement.statement` expression), extracted as a definition. -/
def Table.apply_statement (t : Table V D Cand G S) (ctx : Context V D Cand G S)
    (signer : V) (stmt : Statement Cand D) (signature : S) :
    Option (Table V D Cand G S × Option (Misbehavior Cand D S)) :=
  match stmt with
  | .candidate c => t.import_candidate ctx signer c signature
  | .valid d => some (t.validity_vote ctx signer d true signature)
  | .invalid d => some (t.validity_vote ctx signer d false signature)
  | .available d => some (t.availability_vote ctx signer d signature)

/-- Rust `Table::import_statement`: recover the signer, dispatch on the statement,
and record any detected misbehavior (replacing a previously recorded one:
punishments are not cumulative).  `none` models the panic. -/
def Table.import_statement (t : Table V D Cand G S) (ctx : Context V D Cand G S)
    (st : SignedStatement Cand D S) : Option (Table V D Cand G S) :=
  match ctx.statement_signer st with
  | none => some t
  | some signer =>
      match t.apply_statement ctx signer st.statement st.signature with
      | none => none
      | some (t', some m) =>
          some { t' with
            detected_misbehavior := mapPut t'.detected_misbehavior signer m }
      | some (t', none) => some t'

/-! ### A concrete context for witnesses

Mirrors the `TestContext` of the source's test module, except that the digest
is the whole candidate (so that distinct candidates have distinct digests) and
the signer is recovered as `signature / 10` (signature `0` is unrecoverable).
A validator `v` is a member of group `v` and an availability guarantor of
group `v - 100`. -/

def testCtx : Context Nat (Nat × Nat) (Nat × Nat) Nat Nat where
  candidate_digest c := c
  candidate_group c := c.1
  is_member_of v g := v == g
  is_availability_guarantor_of v g := v == g + 100
  statement_signer st := if st.signature = 0 then none else some (st.signature / 10)

/-- An empty candidate-votes record for candidate `(2, 100)` of group `2`,
as created by a first accepted proposal. -/
def cd0 : CandidateData Nat (Nat × Nat) (Nat × Nat) Nat Nat :=
  { group_id := 2
    candidate := (2, 100)
    validity_votes := []
    availability_votes := []
    indicated_bad_by := [] }

/-- A table in which validator `2` has proposed candidate `(2, 100)` with
signature `21`: the state reached from `create` by importing that proposal. -/
def tbl1 : Table Nat (Nat × Nat) (Nat × Nat) Nat Nat :=
  { proposed_candidates := [(2, ((2, 100), 21))]
    detected_misbehavior := []
    candidate_votes := [((2, 100), cd0)] }

/-- Table `tbl1` with an `UnauthorizedStatement` misbehavior already recorded for
validator `2` (used to witness that a later proof replaces it). -/
def tbl2 : Table Nat (Nat × Nat) (Nat × Nat) Nat Nat :=
  { tbl1 with
    detected_misbehavior := [(2, .unauthorizedStatement
      { statement := { statement := .candidate (5, 7), signature := 21 } })] }

/-- The invariant maintained by `import_statement`:
1. every `(digest, signature)` entry of `proposed_candidates` has a
   `CandidateData` entry in `candidate_votes` under that digest;
2. in every `CandidateData`, `indicated_bad_by` has no duplicate validators
   and holds exactly the validators with an entry in `validity_votes`. -/
def TableInv {V D Cand G S : Type} [DecidableEq V] [DecidableEq D]
    (t : Table V D Cand G S) : Prop :=
  (∀ v p, mapGet t.proposed_candidates v = some p →
    (mapGet t.candidate_votes p.1).isSome) ∧
  (∀ d cd, mapGet t.candidate_votes d = some cd →
    cd.indicated_bad_by.Nodup ∧
    ∀ w, w ∈ cd.indicated_bad_by ↔ (mapGet cd.validity_votes w).isSome)

/-- Tables reachable from `create` by a sequence of (non-panicking)
`import_statement` calls. -/
inductive Reachable {V D Cand G S : Type} [DecidableEq V] [DecidableEq D]
    (ctx : Context V D Cand G S) : Table V D Cand G S → Prop
  | base : Reachable ctx (create V D Cand G S)
  | step {t t' : Table V D Cand G S} (st : SignedStatement Cand D S) :
      Reachable ctx t → t.import_statement ctx st = some t' → Reachable ctx t'

/-! ### Association-list map lemmas -/

theorem mapGet_mapPut {α β : Type} [DecidableEq α] (l : List (α × β)) (k : α) (v : β)
    (k' : α) :
    mapGet (mapPut l k v) k' = if k' = k then some v else mapGet l k' := by
  induction l with
  | nil => by_cases h : k' = k <;> simp [mapGet, mapPut, h]
  | cons p rest ih =>
      obtain ⟨k0, v0⟩ := p
      by_cases hk : k = k0
      · subst hk
        by_cases h' : k' = k <;> simp [mapGet, mapPut, h']
      · by_cases h' : k' = k0
        · subst h'
          have h2 : k' ≠ k := fun h => hk h.symm
          simp [mapGet, mapPut, hk, h2]
        · simp [mapGet, mapPut, hk, h', ih]

theorem mapGet_mapPut_self {α β : Type} [DecidableEq α] (l : List (α × β)) (k : α)
    (v : β) : mapGet (mapPut l k v) k = some v := by
  simp [mapGet_mapPut]

theorem mapGet_mapPut_ne {α β : Type} [DecidableEq α] (l : List (α × β)) (k : α) (v : β)
    (k' : α) (h : k' ≠ k) : mapGet (mapPut l k v) k' = mapGet l k' := by
  simp [mapGet_mapPut, h]

theorem isSome_mapGet_mapPut {α β : Type} [DecidableEq α] (l : List (α × β)) (k : α)
    (v : β) (k' : α) (h : (mapGet l k').isSome) :
    (mapGet (mapPut l k v) k').isSome := by
  by_cases hk : k' = k
  · subst hk; simp [mapGet_mapPut_self]
  · rwa [mapGet_mapPut_ne _ _ _ _ hk]

/-! ### Claims -/

/-- Claim C8: when the context's `statement_signer` returns `None`, the
statement is dropped before any dispatch: `import_statement` succeeds and
returns the table completely unchanged (so `proposed_candidates`,
`candidate_votes` and `detected_misbehavior` are all untouched). -/
theorem claim_C8 {V D Cand G S : Type} [DecidableEq V] [DecidableEq D]
    (ctx : Context V D Cand G S) (t : Table V D Cand G S)
    (st : SignedStatement Cand D S)
    (h : ctx.statement_signer st = none) :
    t.import_statement ctx st = some t := by
  simp [Table.import_statement, h]

/-- Witness for C8: in `testCtx`, signature `0` is unrecoverable and the
statement `Valid (1, 1)` signed `0` leaves the empty table unchanged. -/
theorem claim_C8_witness :
    testCtx.statement_signer { statement := .valid (1, 1), signature := 0 } = none ∧
    (create Nat (Nat × Nat) (Nat × Nat) Nat Nat).import_statement testCtx
        { statement := .valid (1, 1), signature := 0 } =
      some (create Nat (Nat × Nat) (Nat × Nat) Nat Nat) :=
  ⟨by decide, claim_C8 testCtx _ _ (by decide)⟩

/-- Claim C4: a `Valid`, `Invalid` or `Available` statement whose digest has
no `CandidateData` entry in `candidate_votes` is silently dropped:
`import_statement` succeeds and returns the table unchanged, so no
misbehavior is recorded for the signer either. -/
theorem claim_C4 {V D Cand G S : Type} [DecidableEq V] [DecidableEq D]
    (ctx : Context V D Cand G S) (t : Table V D Cand G S)
    (st : SignedStatement Cand D S) (v : V) (d : D)
    (hs : ctx.statement_signer st = some v)
    (hd : st.statement = .valid d ∨ st.statement = .invalid d ∨
      st.statement = .available d)
    (hcv : mapGet t.candidate_votes d = none) :
    t.import_statement ctx st = some t := by
  rcases hd with h | h | h <;>
    simp [Table.import_statement, hs, Table.apply_statement, h,
      Table.validity_vote, Table.availability_vote, hcv]

/-- Witness for C4: on the empty table, `Valid (3, 4)` signed `31` (signer
`3`) is dropped and the table is unchanged. -/
theorem claim_C4_witness :
    testCtx.statement_signer { statement := .valid (3, 4), signature := 31 } = some 3 ∧
    mapGet (create Nat (Nat × Nat) (Nat × Nat) Nat Nat).candidate_votes (3, 4) = none ∧
    (create Nat (Nat × Nat) (Nat × Nat) Nat Nat).import_statement testCtx
        { statement := .valid (3, 4), signature := 31 } =
      some (create Nat (Nat × Nat) (Nat × Nat) Nat Nat) :=
  ⟨by decide, by decide,
    claim_C4 testCtx _ _ 3 (3, 4) (by decide) (Or.inl rfl) (by decide)⟩

/-! ### Branch-unfolding lemmas for the table operations -/

theorem validity_vote_first {V D Cand G S : Type} [DecidableEq V] [DecidableEq D]
    (t : Table V D Cand G S) (ctx : Context V D Cand G S)
    (v : V) (d : D) (flag : Bool) (s : S) (cd : CandidateData V D Cand G S)
    (hcv : mapGet t.candidate_votes d = some cd)
    (hmem : ctx.is_member_of v cd.group_id = true)
    (hnov : mapGet cd.validity_votes v = none) :
    t.validity_vote ctx v d flag s =
      ({ t with
          candidate_votes :=
            mapPut t.candidate_votes d
              { cd with
                validity_votes := mapPut cd.validity_votes v (flag, s)
                indicated_bad_by := cd.indicated_bad_by ++ [v] } }, none) := by
  simp [Table.validity_vote, hcv, hmem, hnov]

theorem validity_vote_double {V D Cand G S : Type} [DecidableEq V] [DecidableEq D]
    (t : Table V D Cand G S) (ctx : Context V D Cand G S)
    (v : V) (d : D) (flag : Bool) (s : S) (cd : CandidateData V D Cand G S)
    (old : Bool × S)
    (hcv : mapGet t.candidate_votes d = some cd)
    (hmem : ctx.is_member_of v cd.group_id = true)
    (hov : mapGet cd.validity_votes v = some old)
    (hne : old.1 ≠ flag) :
    t.validity_vote ctx v d flag s =
      (t, some (.validityDoubleVote
        { digest := d
          t_signature := if flag then s else old.2
          f_signature := if flag then old.2 else s })) := by
  simp [Table.validity_vote, hcv, hmem, hov, hne]

/-- Claim C7: a first validity vote by a group member on a known digest is
recorded as `(flag, signature)` in `validity_votes`, and the signer is
appended to `indicated_bad_by` unconditionally — for both `flag = true`
(`Valid`) and `flag = false` (`Invalid`). -/
theorem claim_C7 {V D Cand G S : Type} [DecidableEq V] [DecidableEq D]
    (ctx : Context V D Cand G S) (t : Table V D Cand G S)
    (v : V) (d : D) (s : S) (flag : Bool) (cd : CandidateData V D Cand G S)
    (hs : ctx.statement_signer
      { statement := if flag then .valid d else .invalid d, signature := s } = some v)
    (hcv : mapGet t.candidate_votes d = some cd)
    (hmem : ctx.is_member_of v cd.group_id = true)
    (hnov : mapGet cd.validity_votes v = none) :
    ∃ t' cd',
      t.import_statement ctx
        { statement := if flag then .valid d else .invalid d, signature := s } =
          some t' ∧
      mapGet t'.candidate_votes d = some cd' ∧
      mapGet cd'.validity_votes v = some (flag, s) ∧
      cd'.indicated_bad_by = cd.indicated_bad_by ++ [v] ∧
      cd'.availability_votes = cd.availability_votes ∧
      cd'.group_id = cd.group_id ∧
      cd'.candidate = cd.candidate ∧
      t'.proposed_candidates = t.proposed_candidates ∧
      t'.detected_misbehavior = t.detected_misbehavior := by
  have h1 := validity_vote_first t ctx v d flag s cd hcv hmem hnov
  refine ⟨{ t with
      candidate_votes :=
        mapPut t.candidate_votes d
          { cd with
            validity_votes := mapPut cd.validity_votes v (flag, s)
            indicated_bad_by := cd.indicated_bad_by ++ [v] } },
    { cd with
      validity_votes := mapPut cd.validity_votes v (flag, s)
      indicated_bad_by := cd.indicated_bad_by ++ [v] },
    ?_, mapGet_mapPut_self _ _ _, mapGet_mapPut_self _ _ _, rfl, rfl, rfl, rfl, rfl, rfl⟩
  cases flag <;> simp only [Bool.false_eq_true, if_true, if_false] at hs <;>
    simp [Table.import_statement, hs, Table.apply_statement, h1]

/-- Witness for C7: validator `2` casts a first `Invalid` vote (signature
`25`) on the known digest `(2, 100)` in `tbl1`; the vote is recorded and `2`
is appended to `indicated_bad_by`. -/
theorem claim_C7_witness :
    (testCtx.statement_signer
        { statement := if false then .valid (2, 100) else .invalid (2, 100),
          signature := 25 } = some 2 ∧
      mapGet tbl1.candidate_votes (2, 100) = some cd0 ∧
      testCtx.is_member_of 2 cd0.group_id = true ∧
      mapGet cd0.validity_votes 2 = none) ∧
    (∃ t' cd',
      tbl1.import_statement testCtx
        { statement := if false then .valid (2, 100) else .invalid (2, 100),
          signature := 25 } = some t' ∧
      mapGet t'.candidate_votes (2, 100) = some cd' ∧
      mapGet cd'.validity_votes 2 = some (false, 25) ∧
      cd'.indicated_bad_by = cd0.indicated_bad_by ++ [2] ∧
      cd'.availability_votes = cd0.availability_votes ∧
      cd'.group_id = cd0.group_id ∧
      cd'.candidate = cd0.candidate ∧
      t'.proposed_candidates = tbl1.proposed_candidates ∧
      t'.detected_misbehavior = tbl1.detected_misbehavior) :=
  ⟨⟨by decide, by decide, by decide, by decide⟩,
    claim_C7 testCtx tbl1 2 (2, 100) 25 false cd0
      (by decide) (by decide) (by decide) (by decide)⟩

theorem import_two_contradictory_votes {V D Cand G S : Type} [DecidableEq V]
    [DecidableEq D]
    (ctx : Context V D Cand G S) (t : Table V D Cand G S)
    (v : V) (d : D) (sA sB : S) (flagA : Bool) (cd : CandidateData V D Cand G S)
    (hsA : ctx.statement_signer
      { statement := if flagA then .valid d else .invalid d, signature := sA } = some v)
    (hsB : ctx.statement_signer
      { statement := if flagA then .invalid d else .valid d, signature := sB } = some v)
    (hcv : mapGet t.candidate_votes d = some cd)
    (hmem : ctx.is_member_of v cd.group_id = true)
    (hnov : mapGet cd.validity_votes v = none) :
    ∃ t1 t2,
      t.import_statement ctx
        { statement := if flagA then .valid d else .invalid d, signature := sA } =
          some t1 ∧
      t1.import_statement ctx
        { statement := if flagA then .invalid d else .valid d, signature := sB } =
          some t2 ∧
      mapGet t2.detected_misbehavior v = some (.validityDoubleVote
        { digest := d
          t_signature := if flagA then sA else sB
          f_signature := if flagA then sB else sA }) ∧
      ∃ cd2, mapGet t2.candidate_votes d = some cd2 ∧
        mapGet cd2.validity_votes v = some (flagA, sA) := by
  cases flagA
  · simp only [Bool.false_eq_true, if_true, if_false] at hsA hsB ⊢
    refine ⟨{ t with
        candidate_votes :=
          mapPut t.candidate_votes d
            { cd with
              validity_votes := mapPut cd.validity_votes v (false, sA)
              indicated_bad_by := cd.indicated_bad_by ++ [v] } },
      { t with
        detected_misbehavior :=
          mapPut t.detected_misbehavior v (.validityDoubleVote
            { digest := d, t_signature := sB, f_signature := sA })
        candidate_votes :=
          mapPut t.candidate_votes d
            { cd with
              validity_votes := mapPut cd.validity_votes v (false, sA)
              indicated_bad_by := cd.indicated_bad_by ++ [v] } },
      ?_, ?_, ?_, ⟨_, mapGet_mapPut_self _ _ _, mapGet_mapPut_self _ _ _⟩⟩
    · simp [Table.import_statement, hsA, Table.apply_statement, Table.validity_vote,
        hcv, hmem, hnov]
    · simp [Table.import_statement, hsB, Table.apply_statement, Table.validity_vote,
        mapGet_mapPut_self, hmem]
    · simp [mapGet_mapPut_self]
  · simp only [if_true, if_false] at hsA hsB ⊢
    refine ⟨{ t with
        candidate_votes :=
          mapPut t.candidate_votes d
            { cd with
              validity_votes := mapPut cd.validity_votes v (true, sA)
              indicated_bad_by := cd.indicated_bad_by ++ [v] } },
      { t with
        detected_misbehavior :=
          mapPut t.detected_misbehavior v (.validityDoubleVote
            { digest := d, t_signature := sA, f_signature := sB })
        candidate_votes :=
          mapPut t.candidate_votes d
            { cd with
              validity_votes := mapPut cd.validity_votes v (true, sA)
              indicated_bad_by := cd.indicated_bad_by ++ [v] } },
      ?_, ?_, ?_, ⟨_, mapGet_mapPut_self _ _ _, mapGet_mapPut_self _ _ _⟩⟩
    · simp [Table.import_statement, hsA, Table.apply_statement, Table.validity_vote,
        hcv, hmem, hnov]
    · simp [Table.import_statement, hsB, Table.apply_statement, Table.validity_vote,
        mapGet_mapPut_self, hmem]
    · simp [mapGet_mapPut_self]

/-- Claim C2: for a known digest `d` and a group member `v` with no prior
vote, importing `Valid d` (signature `s1`) then `Invalid d` (signature `s2`)
records `ValidityDoubleVote {digest := d, t_signature := s1, f_signature :=
s2}`; importing them in the opposite order records exactly the same proof
(the true-vote signature always lands in `t_signature`); and in both cases
`v`'s entry in `validity_votes` keeps the first vote's flag and signature. -/
theorem claim_C2 {V D Cand G S : Type} [DecidableEq V] [DecidableEq D]
    (ctx : Context V D Cand G S) (t : Table V D Cand G S)
    (v : V) (d : D) (s1 s2 : S) (cd : CandidateData V D Cand G S)
    (hs1 : ctx.statement_signer
      { statement := .valid d, signature := s1 } = some v)
    (hs2 : ctx.statement_signer
      { statement := .invalid d, signature := s2 } = some v)
    (hcv : mapGet t.candidate_votes d = some cd)
    (hmem : ctx.is_member_of v cd.group_id = true)
    (hnov : mapGet cd.validity_votes v = none) :
    (∃ t1 t2,
      t.import_statement ctx { statement := .valid d, signature := s1 } = some t1 ∧
      t1.import_statement ctx { statement := .invalid d, signature := s2 } = some t2 ∧
      mapGet t2.detected_misbehavior v = some (.validityDoubleVote
        { digest := d, t_signature := s1, f_signature := s2 }) ∧
      ∃ cd2, mapGet t2.candidate_votes d = some cd2 ∧
        mapGet cd2.validity_votes v = some (true, s1)) ∧
    (∃ t1 t2,
      t.import_statement ctx { statement := .invalid d, signature := s2 } = some t1 ∧
      t1.import_statement ctx { statement := .valid d, signature := s1 } = some t2 ∧
      mapGet t2.detected_misbehavior v = some (.validityDoubleVote
        { digest := d, t_signature := s1, f_signature := s2 }) ∧
      ∃ cd2, mapGet t2.candidate_votes d = some cd2 ∧
        mapGet cd2.validity_votes v = some (false, s2)) := by
  constructor
  · have h := import_two_contradictory_votes ctx t v d s1 s2 true cd
      (by simpa using hs1) (by simpa using hs2) hcv hmem hnov
    simpa using h
  · have h := import_two_contradictory_votes ctx t v d s2 s1 false cd
      (by simpa using hs2) (by simpa using hs1) hcv hmem hnov
    simpa using h

/-- Witness for C2: in `tbl1`, validator `2` double-votes on digest
`(2, 100)` with signatures `25` (valid) and `26` (invalid). -/
theorem claim_C2_witness :
    (testCtx.statement_signer
        { statement := .valid (2, 100), signature := 25 } = some 2 ∧
      testCtx.statement_signer
        { statement := .invalid (2, 100), signature := 26 } = some 2 ∧
      mapGet tbl1.candidate_votes (2, 100) = some cd0 ∧
      testCtx.is_member_of 2 cd0.group_id = true ∧
      mapGet cd0.validity_votes 2 = none) ∧
    ((∃ t1 t2,
      tbl1.import_statement testCtx
        { statement := .valid (2, 100), signature := 25 } = some t1 ∧
      t1.import_statement testCtx
        { statement := .invalid (2, 100), signature := 26 } = some t2 ∧
      mapGet t2.detected_misbehavior 2 = some (.validityDoubleVote
        { digest := (2, 100), t_signature := 25, f_signature := 26 }) ∧
      ∃ cd2, mapGet t2.candidate_votes (2, 100) = some cd2 ∧
        mapGet cd2.validity_votes 2 = some (true, 25)) ∧
    (∃ t1 t2,
      tbl1.import_statement testCtx
        { statement := .invalid (2, 100), signature := 26 } = some t1 ∧
      t1.import_statement testCtx
        { statement := .valid (2, 100), signature := 25 } = some t2 ∧
      mapGet t2.detected_misbehavior 2 = some (.validityDoubleVote
        { digest := (2, 100), t_signature := 25, f_signature := 26 }) ∧
      ∃ cd2, mapGet t2.candidate_votes (2, 100) = some cd2 ∧
        mapGet cd2.validity_votes 2 = some (false, 26))) :=
  ⟨⟨by decide, by decide, by decide, by decide, by decide⟩,
    claim_C2 testCtx tbl1 2 (2, 100) 25 26 cd0
      (by decide) (by decide) (by decide) (by decide) (by decide)⟩

/-- Claim C6: importing the same `(validator, candidate, signature)` proposal
twice in succession produces no misbehavior on either import (the
`detected_misbehavior` map is exactly as before), and the table after the
second import is identical to the table after the first import. -/
theorem claim_C6 {V D Cand G S : Type} [DecidableEq V] [DecidableEq D]
    (ctx : Context V D Cand G S) (t : Table V D Cand G S)
    (v : V) (c : Cand) (s : S)
    (hs : ctx.statement_signer { statement := .candidate c, signature := s } = some v)
    (hm : ctx.is_member_of v (ctx.candidate_group c) = true)
    (hnp : mapGet t.proposed_candidates v = none) :
    ∃ t1,
      t.import_statement ctx { statement := .candidate c, signature := s } = some t1 ∧
      t1.import_statement ctx { statement := .candidate c, signature := s } = some t1 ∧
      t1.detected_misbehavior = t.detected_misbehavior := by
  cases hcv : mapGet t.candidate_votes (ctx.candidate_digest c) with
  | none =>
      refine ⟨{ t with
          proposed_candidates :=
            mapPut t.proposed_candidates v (ctx.candidate_digest c, s)
          candidate_votes :=
            mapPut t.candidate_votes (ctx.candidate_digest c)
              { group_id := ctx.candidate_group c
                candidate := c
                validity_votes := []
                availability_votes := []
                indicated_bad_by := [] } }, ?_, ?_, rfl⟩
      · simp [Table.import_statement, hs, Table.apply_statement,
          Table.import_candidate, hm, hnp, hcv]
      · simp [Table.import_statement, hs, Table.apply_statement,
          Table.import_candidate, hm, mapGet_mapPut_self]
  | some data =>
      refine ⟨{ t with
          proposed_candidates :=
            mapPut t.proposed_candidates v (ctx.candidate_digest c, s) }, ?_, ?_, rfl⟩
      · simp [Table.import_statement, hs, Table.apply_statement,
          Table.import_candidate, hm, hnp, hcv]
      · simp [Table.import_statement, hs, Table.apply_statement,
          Table.import_candidate, hm, mapGet_mapPut_self]

/-- Witness for C6: on the empty table, validator `2` proposes `(2, 100)`
with signature `21` twice; the second import is a no-op. -/
theorem claim_C6_witness :
    (testCtx.statement_signer
        { statement := .candidate (2, 100), signature := 21 } = some 2 ∧
      testCtx.is_member_of 2 (testCtx.candidate_group (2, 100)) = true ∧
      mapGet (create Nat (Nat × Nat) (Nat × Nat) Nat Nat).proposed_candidates 2 =
        none) ∧
    (∃ t1,
      (create Nat (Nat × Nat) (Nat × Nat) Nat Nat).import_statement testCtx
        { statement := .candidate (2, 100), signature := 21 } = some t1 ∧
      t1.import_statement testCtx
        { statement := .candidate (2, 100), signature := 21 } = some t1 ∧
      t1.detected_misbehavior =
        (create Nat (Nat × Nat) (Nat × Nat) Nat Nat).detected_misbehavior) :=
  ⟨⟨by decide, by decide, by decide⟩,
    claim_C6 testCtx _ 2 (2, 100) 21 (by decide) (by decide) (by decide)⟩

/-- Claim C1: a validator `v` that proposes candidate `A` (signature `s1`)
and then a different candidate `B` (signature `s2`) — `B`'s group equal to
`A`'s or not — has, after the second import,
`MultipleCandidates {first := (A, s1), second := (B, s2)}` recorded in
`detected_misbehavior`, while `proposed_candidates` still records `A`'s
digest and `s1`, and the second import creates no `CandidateData` (the vote
collections are exactly those after the first import).  `candidate_digest`
is assumed injective (the spec defines the digest as a unique content
identifier of a candidate), and `v` is assumed authorized for both groups
and without a prior proposal or a foreign `CandidateData` entry under `A`'s
digest, which is how `v` "proposes A then B". -/
theorem claim_C1 {V D Cand G S : Type} [DecidableEq V] [DecidableEq D]
    (ctx : Context V D Cand G S) (t : Table V D Cand G S)
    (v : V) (A B : Cand) (s1 s2 : S)
    (hinj : ∀ c c' : Cand, ctx.candidate_digest c = ctx.candidate_digest c' → c = c')
    (hAB : A ≠ B)
    (hs1 : ctx.statement_signer
      { statement := .candidate A, signature := s1 } = some v)
    (hs2 : ctx.statement_signer
      { statement := .candidate B, signature := s2 } = some v)
    (hmA : ctx.is_member_of v (ctx.candidate_group A) = true)
    (hmB : ctx.is_member_of v (ctx.candidate_group B) = true)
    (hnp : mapGet t.proposed_candidates v = none)
    (hcvA : ∀ cd, mapGet t.candidate_votes (ctx.candidate_digest A) = some cd →
      cd.candidate = A) :
    ∃ t1 t2,
      t.import_statement ctx { statement := .candidate A, signature := s1 } =
        some t1 ∧
      t1.import_statement ctx { statement := .candidate B, signature := s2 } =
        some t2 ∧
      mapGet t2.detected_misbehavior v =
        some (.multipleCandidates { first := (A, s1), second := (B, s2) }) ∧
      mapGet t2.proposed_candidates v = some (ctx.candidate_digest A, s1) ∧
      t2.proposed_candidates = t1.proposed_candidates ∧
      t2.candidate_votes = t1.candidate_votes := by
  have hne : ctx.candidate_digest A ≠ ctx.candidate_digest B :=
    fun h => hAB (hinj A B h)
  cases hcv : mapGet t.candidate_votes (ctx.candidate_digest A) with
  | none =>
      refine ⟨{ t with
          proposed_candidates :=
            mapPut t.proposed_candidates v (ctx.candidate_digest A, s1)
          candidate_votes :=
            mapPut t.candidate_votes (ctx.candidate_digest A)
              { group_id := ctx.candidate_group A
                candidate := A
                validity_votes := []
                availability_votes := []
                indicated_bad_by := [] } },
        { t with
          proposed_candidates :=
            mapPut t.proposed_candidates v (ctx.candidate_digest A, s1)
          detected_misbehavior :=
            mapPut t.detected_misbehavior v
              (.multipleCandidates { first := (A, s1), second := (B, s2) })
          candidate_votes :=
            mapPut t.candidate_votes (ctx.candidate_digest A)
              { group_id := ctx.candidate_group A
                candidate := A
                validity_votes := []
                availability_votes := []
                indicated_bad_by := [] } }, ?_, ?_, ?_, ?_, rfl, rfl⟩
      · simp [Table.import_statement, hs1, Table.apply_statement,
          Table.import_candidate, hmA, hnp, hcv]
      · simp [Table.import_statement, hs2, Table.apply_statement,
          Table.import_candidate, hmB, mapGet_mapPut_self, hne]
      · simp [mapGet_mapPut_self]
      · simp [mapGet_mapPut_self]
  | some data =>
      have hA := hcvA data hcv
      refine ⟨{ t with
          proposed_candidates :=
            mapPut t.proposed_candidates v (ctx.candidate_digest A, s1) },
        { t with
          proposed_candidates :=
            mapPut t.proposed_candidates v (ctx.candidate_digest A, s1)
          detected_misbehavior :=
            mapPut t.detected_misbehavior v
              (.multipleCandidates { first := (A, s1), second := (B, s2) }) },
        ?_, ?_, ?_, ?_, rfl, rfl⟩
      · simp [Table.import_statement, hs1, Table.apply_statement,
          Table.import_candidate, hmA, hnp, hcv]
      · simp [Table.import_statement, hs2, Table.apply_statement,
          Table.import_candidate, hmB, mapGet_mapPut_self, hne, hcv, hA]
      · simp [mapGet_mapPut_self]
      · simp [mapGet_mapPut_self]

/-- Witness for C1: on the empty table, validator `2` proposes `(2, 100)`
(signature `21`) and then `(2, 999)` (signature `22`); the recorded
misbehavior is `MultipleCandidates {first := ((2,100), 21), second :=
((2,999), 22)}` and the first proposal is retained. -/
theorem claim_C1_witness :
    ((∀ c c' : Nat × Nat,
        testCtx.candidate_digest c = testCtx.candidate_digest c' → c = c') ∧
      ((2, 100) : Nat × Nat) ≠ (2, 999) ∧
      testCtx.statement_signer
        { statement := .candidate (2, 100), signature := 21 } = some 2 ∧
      testCtx.statement_signer
        { statement := .candidate (2, 999), signature := 22 } = some 2 ∧
      testCtx.is_member_of 2 (testCtx.candidate_group (2, 100)) = true ∧
      testCtx.is_member_of 2 (testCtx.candidate_group (2, 999)) = true ∧
      mapGet (create Nat (Nat × Nat) (Nat × Nat) Nat Nat).proposed_candidates 2 =
        none) ∧
    (∃ t1 t2,
      (create Nat (Nat × Nat) (Nat × Nat) Nat Nat).import_statement testCtx
        { statement := .candidate (2, 100), signature := 21 } = some t1 ∧
      t1.import_statement testCtx
        { statement := .candidate (2, 999), signature := 22 } = some t2 ∧
      mapGet t2.detected_misbehavior 2 =
        some (.multipleCandidates
          { first := ((2, 100), 21), second := ((2, 999), 22) }) ∧
      mapGet t2.proposed_candidates 2 =
        some (testCtx.candidate_digest (2, 100), 21) ∧
      t2.proposed_candidates = t1.proposed_candidates ∧
      t2.candidate_votes = t1.candidate_votes) :=
  ⟨⟨fun _ _ h => h, by decide, by decide, by decide, by decide, by decide, by decide⟩,
    claim_C1 testCtx _ 2 (2, 100) (2, 999) 21 22 (fun _ _ h => h) (by decide)
      (by decide) (by decide) (by decide) (by decide) (by decide)
      (fun cd h => Option.noConfusion h)⟩

/-- Claim C3: an unauthorized statement — a proposal by a non-member of the
candidate's group, a validity vote by a non-member of the digest's group, or
an availability vote by a non-guarantor — always records
`UnauthorizedStatement` wrapping the offending signed statement, and leaves
`proposed_candidates` and `candidate_votes` (hence all `validity_votes`,
`availability_votes` and `indicated_bad_by`) unchanged. -/
theorem claim_C3 {V D Cand G S : Type} [DecidableEq V] [DecidableEq D] :
    (∀ (ctx : Context V D Cand G S) (t : Table V D Cand G S) (v : V) (c : Cand)
      (s : S),
      ctx.statement_signer { statement := .candidate c, signature := s } = some v →
      ctx.is_member_of v (ctx.candidate_group c) = false →
      ∃ t',
        t.import_statement ctx { statement := .candidate c, signature := s } =
          some t' ∧
        t'.proposed_candidates = t.proposed_candidates ∧
        t'.candidate_votes = t.candidate_votes ∧
        mapGet t'.detected_misbehavior v = some (.unauthorizedStatement
          { statement := { statement := .candidate c, signature := s } })) ∧
    (∀ (ctx : Context V D Cand G S) (t : Table V D Cand G S) (v : V) (d : D)
      (flag : Bool) (s : S) (cd : CandidateData V D Cand G S),
      ctx.statement_signer
        { statement := if flag then .valid d else .invalid d, signature := s } =
          some v →
      mapGet t.candidate_votes d = some cd →
      ctx.is_member_of v cd.group_id = false →
      ∃ t',
        t.import_statement ctx
          { statement := if flag then .valid d else .invalid d, signature := s } =
            some t' ∧
        t'.proposed_candidates = t.proposed_candidates ∧
        t'.candidate_votes = t.candidate_votes ∧
        mapGet t'.detected_misbehavior v = some (.unauthorizedStatement
          { statement :=
            { statement := if flag then .valid d else .invalid d
              signature := s } })) ∧
    (∀ (ctx : Context V D Cand G S) (t : Table V D Cand G S) (v : V) (d : D)
      (s : S) (cd : CandidateData V D Cand G S),
      ctx.statement_signer { statement := .available d, signature := s } = some v →
      mapGet t.candidate_votes d = some cd →
      ctx.is_availability_guarantor_of v cd.group_id = false →
      ∃ t',
        t.import_statement ctx { statement := .available d, signature := s } =
          some t' ∧
        t'.proposed_candidates = t.proposed_candidates ∧
        t'.candidate_votes = t.candidate_votes ∧
        mapGet t'.detected_misbehavior v = some (.unauthorizedStatement
          { statement := { statement := .available d, signature := s } })) := by
  refine ⟨?_, ?_, ?_⟩
  · intro ctx t v c s hs hm
    refine ⟨{ t with
        detected_misbehavior := mapPut t.detected_misbehavior v
          (.unauthorizedStatement
            { statement := { statement := .candidate c, signature := s } }) },
      ?_, rfl, rfl, mapGet_mapPut_self _ _ _⟩
    simp [Table.import_statement, hs, Table.apply_statement,
      Table.import_candidate, hm]
  · intro ctx t v d flag s cd hs hcv hm
    refine ⟨{ t with
        detected_misbehavior := mapPut t.detected_misbehavior v
          (.unauthorizedStatement
            { statement :=
              { statement := if flag then .valid d else .invalid d
                signature := s } }) },
      ?_, rfl, rfl, mapGet_mapPut_self _ _ _⟩
    cases flag <;> simp only [Bool.false_eq_true, if_true, if_false] at hs ⊢ <;>
      simp [Table.import_statement, hs, Table.apply_statement,
        Table.validity_vote, hcv, hm]
  · intro ctx t v d s cd hs hcv hg
    refine ⟨{ t with
        detected_misbehavior := mapPut t.detected_misbehavior v
          (.unauthorizedStatement
            { statement := { statement := .available d, signature := s } }) },
      ?_, rfl, rfl, mapGet_mapPut_self _ _ _⟩
    simp [Table.import_statement, hs, Table.apply_statement,
      Table.availability_vote, hcv, hg]

/-- Witness for C3: validator `3` (a member of group `3` only, guarantor of
none of the groups involved) proposes `(5, 7)`, votes `Valid` on the known
digest `(2, 100)`, and votes `Available` on it; each import records the
corresponding `UnauthorizedStatement` and leaves the vote state of `tbl1`
unchanged. -/
theorem claim_C3_witness :
    (testCtx.is_member_of 3 (testCtx.candidate_group (5, 7)) = false ∧
      mapGet tbl1.candidate_votes (2, 100) = some cd0 ∧
      testCtx.is_member_of 3 cd0.group_id = false ∧
      testCtx.is_availability_guarantor_of 3 cd0.group_id = false) ∧
    (∃ t',
      tbl1.import_statement testCtx
        { statement := .candidate (5, 7), signature := 31 } = some t' ∧
      t'.proposed_candidates = tbl1.proposed_candidates ∧
      t'.candidate_votes = tbl1.candidate_votes ∧
      mapGet t'.detected_misbehavior 3 = some (.unauthorizedStatement
        { statement := { statement := .candidate (5, 7), signature := 31 } })) ∧
    (∃ t',
      tbl1.import_statement testCtx
        { statement := if true then .valid (2, 100) else .invalid (2, 100),
          signature := 31 } = some t' ∧
      t'.proposed_candidates = tbl1.proposed_candidates ∧
      t'.candidate_votes = tbl1.candidate_votes ∧
      mapGet t'.detected_misbehavior 3 = some (.unauthorizedStatement
        { statement :=
          { statement := if true then .valid (2, 100) else .invalid (2, 100)
            signature := 31 } })) ∧
    (∃ t',
      tbl1.import_statement testCtx
        { statement := .available (2, 100), signature := 31 } = some t' ∧
      t'.proposed_candidates = tbl1.proposed_candidates ∧
      t'.candidate_votes = tbl1.candidate_votes ∧
      mapGet t'.detected_misbehavior 3 = some (.unauthorizedStatement
        { statement := { statement := .available (2, 100), signature := 31 } })) :=
  ⟨⟨by decide, by decide, by decide, by decide⟩,
    (@claim_C3 Nat (Nat × Nat) (Nat × Nat) Nat Nat _ _).1 testCtx tbl1 3 (5, 7) 31
      (by decide) (by decide),
    (@claim_C3 Nat (Nat × Nat) (Nat × Nat) Nat Nat _ _).2.1 testCtx tbl1 3 (2, 100)
      true 31 cd0 (by decide) (by decide) (by decide),
    (@claim_C3 Nat (Nat × Nat) (Nat × Nat) Nat Nat _ _).2.2 testCtx tbl1 3 (2, 100)
      31 cd0 (by decide) (by decide) (by decide)⟩

/-- Claim C5: when `import_statement` detects a misbehavior `m` for a signer
`v` who already has a recorded misbehavior `m0`, the insertion into
`detected_misbehavior` replaces the prior entry: afterwards the lookup for
`v` yields `m` (the most recently detected proof), and entries of other
validators are untouched — so the map keeps at most one proof per
validator. -/
theorem claim_C5 {V D Cand G S : Type} [DecidableEq V] [DecidableEq D]
    (ctx : Context V D Cand G S) (t t1 : Table V D Cand G S)
    (st : SignedStatement Cand D S) (v : V)
    (m0 m : Misbehavior Cand D S)
    (hs : ctx.statement_signer st = some v)
    (_hm0 : mapGet t.detected_misbehavior v = some m0)
    (ha : t.apply_statement ctx v st.statement st.signature = some (t1, some m)) :
    t.import_statement ctx st =
      some { t1 with
        detected_misbehavior := mapPut t1.detected_misbehavior v m } ∧
    mapGet (mapPut t1.detected_misbehavior v m) v = some m ∧
    ∀ w, w ≠ v →
      mapGet (mapPut t1.detected_misbehavior v m) w =
        mapGet t1.detected_misbehavior w :=
  ⟨by simp [Table.import_statement, hs, ha], mapGet_mapPut_self _ _ _,
    fun _ hw => mapGet_mapPut_ne _ _ _ _ hw⟩

/-- Witness for C5: validator `2`, already flagged with an
`UnauthorizedStatement` in `tbl2`, proposes a second candidate `(2, 999)`;
the resulting `MultipleCandidates` proof replaces the prior entry. -/
theorem claim_C5_witness :
    (testCtx.statement_signer
        { statement := .candidate (2, 999), signature := 22 } = some 2 ∧
      mapGet tbl2.detected_misbehavior 2 = some (.unauthorizedStatement
        { statement := { statement := .candidate (5, 7), signature := 21 } }) ∧
      tbl2.apply_statement testCtx 2 (.candidate (2, 999)) 22 =
        some (tbl2, some (.multipleCandidates
          { first := ((2, 100), 21), second := ((2, 999), 22) }))) ∧
    (tbl2.import_statement testCtx
        { statement := .candidate (2, 999), signature := 22 } =
      some { tbl2 with
        detected_misbehavior := mapPut tbl2.detected_misbehavior 2
          (.multipleCandidates
            { first := ((2, 100), 21), second := ((2, 999), 22) }) } ∧
    mapGet
        (mapPut tbl2.detected_misbehavior 2
          (.multipleCandidates
            { first := ((2, 100), 21), second := ((2, 999), 22) })) 2 =
      some (.multipleCandidates
        { first := ((2, 100), 21), second := ((2, 999), 22) }) ∧
    ∀ w, w ≠ 2 →
      mapGet
          (mapPut tbl2.detected_misbehavior 2
            (.multipleCandidates
              { first := ((2, 100), 21), second := ((2, 999), 22) })) w =
        mapGet tbl2.detected_misbehavior w) :=
  ⟨⟨by decide, by decide, by decide⟩,
    claim_C5 testCtx tbl2 tbl2 { statement := .candidate (2, 999), signature := 22 }
      2 (.unauthorizedStatement
        { statement := { statement := .candidate (5, 7), signature := 21 } })
      (.multipleCandidates { first := ((2, 100), 21), second := ((2, 999), 22) })
      (by decide) (by decide) (by decide)⟩

/-- Exhaustive description of the possible one-step transitions of
`import_statement`: a successful import either leaves the table unchanged,
only records a misbehavior, accepts a fresh proposal (reusing or creating the
`CandidateData`), records a first validity vote, or records an availability
vote. -/
theorem import_statement_shape {V D Cand G S : Type} [DecidableEq V] [DecidableEq D]
    (ctx : Context V D Cand G S) (t t' : Table V D Cand G S)
    (st : SignedStatement Cand D S)
    (h : t.import_statement ctx st = some t') :
    t' = t ∨
    (∃ v m, t' = { t with
      detected_misbehavior := mapPut t.detected_misbehavior v m }) ∨
    (∃ v dg s, mapGet t.proposed_candidates v = none ∧
      (((mapGet t.candidate_votes dg).isSome ∧
        t' = { t with
          proposed_candidates := mapPut t.proposed_candidates v (dg, s) }) ∨
       (mapGet t.candidate_votes dg = none ∧ ∃ g c,
        t' = { t with
          proposed_candidates := mapPut t.proposed_candidates v (dg, s)
          candidate_votes := mapPut t.candidate_votes dg
            { group_id := g
              candidate := c
              validity_votes := []
              availability_votes := []
              indicated_bad_by := [] } }))) ∨
    (∃ d cd v flag s, mapGet t.candidate_votes d = some cd ∧
      mapGet cd.validity_votes v = none ∧
      t' = { t with
        candidate_votes := mapPut t.candidate_votes d
          { cd with
            validity_votes := mapPut cd.validity_votes v (flag, s)
            indicated_bad_by := cd.indicated_bad_by ++ [v] } }) ∨
    (∃ d cd v, mapGet t.candidate_votes d = some cd ∧
      t' = { t with
        candidate_votes := mapPut t.candidate_votes d
          { cd with
            availability_votes := setPut cd.availability_votes v } }) := by
  obtain ⟨stmt, sig⟩ := st
  cases hsg : ctx.statement_signer { statement := stmt, signature := sig } with
  | none =>
      simp only [Table.import_statement, hsg, Option.some.injEq] at h
      exact Or.inl h.symm
  | some signer =>
      cases stmt with
      | candidate c =>
          cases hm : ctx.is_member_of signer (ctx.candidate_group c) with
          | false =>
              simp [Table.import_statement, hsg, Table.apply_statement,
                Table.import_candidate, hm] at h
              exact Or.inr (Or.inl ⟨signer, _, h.symm⟩)
          | true =>
              cases hp : mapGet t.proposed_candidates signer with
              | some old =>
                  by_cases hd : old.1 = ctx.candidate_digest c
                  · simp [Table.import_statement, hsg, Table.apply_statement,
                      Table.import_candidate, hm, hp, hd] at h
                    exact Or.inl h.symm
                  · cases hv : mapGet t.candidate_votes old.1 with
                    | none =>
                        simp [Table.import_statement, hsg, Table.apply_statement,
                          Table.import_candidate, hm, hp, hd, hv] at h
                    | some data =>
                        simp [Table.import_statement, hsg, Table.apply_statement,
                          Table.import_candidate, hm, hp, hd, hv] at h
                        exact Or.inr (Or.inl ⟨signer, _, h.symm⟩)
              | none =>
                  cases hcv : mapGet t.candidate_votes (ctx.candidate_digest c) with
                  | some data =>
                      simp [Table.import_statement, hsg, Table.apply_statement,
                        Table.import_candidate, hm, hp, hcv] at h
                      exact Or.inr (Or.inr (Or.inl ⟨signer, ctx.candidate_digest c,
                        sig, hp, Or.inl ⟨by simp [hcv], h.symm⟩⟩))
                  | none =>
                      simp [Table.import_statement, hsg, Table.apply_statement,
                        Table.import_candidate, hm, hp, hcv] at h
                      exact Or.inr (Or.inr (Or.inl ⟨signer, ctx.candidate_digest c,
                        sig, hp, Or.inr ⟨hcv, ctx.candidate_group c, c, h.symm⟩⟩))
      | valid d =>
          cases hcv : mapGet t.candidate_votes d with
          | none =>
              simp [Table.import_statement, hsg, Table.apply_statement,
                Table.validity_vote, hcv] at h
              exact Or.inl h.symm
          | some cd =>
              cases hm : ctx.is_member_of signer cd.group_id with
              | false =>
                  simp [Table.import_statement, hsg, Table.apply_statement,
                    Table.validity_vote, hcv, hm] at h
                  exact Or.inr (Or.inl ⟨signer, _, h.symm⟩)
              | true =>
                  cases hov : mapGet cd.validity_votes signer with
                  | some occ =>
                      by_cases hne : occ.1 = true
                      · simp [Table.import_statement, hsg, Table.apply_statement,
                          Table.validity_vote, hcv, hm, hov, hne] at h
                        exact Or.inl h.symm
                      · simp [Table.import_statement, hsg, Table.apply_statement,
                          Table.validity_vote, hcv, hm, hov, hne] at h
                        exact Or.inr (Or.inl ⟨signer, _, h.symm⟩)
                  | none =>
                      simp [Table.import_statement, hsg, Table.apply_statement,
                        Table.validity_vote, hcv, hm, hov] at h
                      exact Or.inr (Or.inr (Or.inr (Or.inl
                        ⟨d, cd, signer, true, sig, hcv, hov, h.symm⟩)))
      | invalid d =>
          cases hcv : mapGet t.candidate_votes d with
          | none =>
              simp [Table.import_statement, hsg, Table.apply_statement,
                Table.validity_vote, hcv] at h
              exact Or.inl h.symm
          | some cd =>
              cases hm : ctx.is_member_of signer cd.group_id with
              | false =>
                  simp [Table.import_statement, hsg, Table.apply_statement,
                    Table.validity_vote, hcv, hm] at h
                  exact Or.inr (Or.inl ⟨signer, _, h.symm⟩)
              | true =>
                  cases hov : mapGet cd.validity_votes signer with
                  | some occ =>
                      by_cases hne : occ.1 = false
                      · simp [Table.import_statement, hsg, Table.apply_statement,
                          Table.validity_vote, hcv, hm, hov, hne] at h
                        exact Or.inl h.symm
                      · simp [Table.import_statement, hsg, Table.apply_statement,
                          Table.validity_vote, hcv, hm, hov, hne] at h
                        exact Or.inr (Or.inl ⟨signer, _, h.symm⟩)
                  | none =>
                      simp [Table.import_statement, hsg, Table.apply_statement,
                        Table.validity_vote, hcv, hm, hov] at h
                      exact Or.inr (Or.inr (Or.inr (Or.inl
                        ⟨d, cd, signer, false, sig, hcv, hov, h.symm⟩)))
      | available d =>
          cases hcv : mapGet t.candidate_votes d with
          | none =>
              simp [Table.import_statement, hsg, Table.apply_statement,
                Table.availability_vote, hcv] at h
              exact Or.inl h.symm
          | some cd =>
              cases hg : ctx.is_availability_guarantor_of signer cd.group_id with
              | false =>
                  simp [Table.import_statement, hsg, Table.apply_statement,
                    Table.availability_vote, hcv, hg] at h
                  exact Or.inr (Or.inl ⟨signer, _, h.symm⟩)
              | true =>
                  simp [Table.import_statement, hsg, Table.apply_statement,
                    Table.availability_vote, hcv, hg] at h
                  exact Or.inr (Or.inr (Or.inr (Or.inr
                    ⟨d, cd, signer, hcv, h.symm⟩)))

theorem tableInv_step {V D Cand G S : Type} [DecidableEq V] [DecidableEq D]
    (ctx : Context V D Cand G S) (t t' : Table V D Cand G S)
    (st : SignedStatement Cand D S)
    (h : t.import_statement ctx st = some t') (hI : TableInv t) :
    TableInv t' := by
  obtain ⟨h1, h2⟩ := hI
  rcases import_statement_shape ctx t t' st h with rfl | ⟨v, m, rfl⟩ |
    ⟨v, dg, s, hp, ⟨hsome, rfl⟩ | ⟨hnone, g, c, rfl⟩⟩ |
    ⟨d, cd, v, flag, s, hcv, hov, rfl⟩ | ⟨d, cd, v, hcv, rfl⟩
  · exact ⟨h1, h2⟩
  · exact ⟨h1, h2⟩
  · -- fresh proposal, CandidateData already present
    refine ⟨fun w p hw => ?_, h2⟩
    simp only [mapGet_mapPut] at hw
    by_cases hwv : w = v
    · simp [hwv] at hw
      subst hw
      simpa using hsome
    · simp [hwv] at hw
      exact h1 w p hw
  · -- fresh proposal, new CandidateData
    refine ⟨fun w p hw => ?_, fun d' cd' hd' => ?_⟩
    · simp only [mapGet_mapPut] at hw
      by_cases hwv : w = v
      · simp [hwv] at hw
        subst hw
        simp [mapGet_mapPut]
      · simp [hwv] at hw
        have := h1 w p hw
        simpa using isSome_mapGet_mapPut t.candidate_votes dg _ p.1 this
    · simp only [mapGet_mapPut] at hd'
      by_cases hdd : d' = dg
      · simp [hdd] at hd'
        subst hd'
        exact ⟨by simp, fun w => by simp [mapGet]⟩
      · simp [hdd] at hd'
        exact h2 d' cd' hd'
  · -- first validity vote
    refine ⟨fun w p hw => ?_, fun d' cd' hd' => ?_⟩
    · have := h1 w p hw
      simpa using isSome_mapGet_mapPut t.candidate_votes d _ p.1 this
    · simp only [mapGet_mapPut] at hd'
      by_cases hdd : d' = d
      · simp [hdd] at hd'
        subst hd'
        obtain ⟨hnd, hiff⟩ := h2 d cd hcv
        have hvnot : v ∉ cd.indicated_bad_by := by
          intro hvin
          have hsome := (hiff v).1 hvin
          rw [hov] at hsome
          simp at hsome
        constructor
        · simp [List.nodup_append, hnd, hvnot]
        · intro w
          simp only [List.mem_append, List.mem_singleton, mapGet_mapPut]
          by_cases hwv : w = v
          · simp [hwv]
          · simp [hwv, hiff w]
      · simp [hdd] at hd'
        exact h2 d' cd' hd'
  · -- availability vote
    refine ⟨fun w p hw => ?_, fun d' cd' hd' => ?_⟩
    · have := h1 w p hw
      simpa using isSome_mapGet_mapPut t.candidate_votes d _ p.1 this
    · simp only [mapGet_mapPut] at hd'
      by_cases hdd : d' = d
      · simp [hdd] at hd'
        subst hd'
        simpa using h2 d cd hcv
      · simp [hdd] at hd'
        exact h2 d' cd' hd'

theorem reachable_tableInv {V D Cand G S : Type} [DecidableEq V] [DecidableEq D]
    {ctx : Context V D Cand G S} {t : Table V D Cand G S}
    (h : Reachable ctx t) : TableInv t := by
  induction h with
  | base =>
      exact ⟨fun v p hp => by simp [create, mapGet] at hp,
        fun d cd hd => by simp [create, mapGet] at hd⟩
  | step st hr himp ih => exact tableInv_step _ _ _ st himp ih

theorem import_statement_isSome {V D Cand G S : Type} [DecidableEq V] [DecidableEq D]
    (ctx : Context V D Cand G S) (t : Table V D Cand G S)
    (st : SignedStatement Cand D S)
    (h1 : ∀ v p, mapGet t.proposed_candidates v = some p →
      (mapGet t.candidate_votes p.1).isSome) :
    (t.import_statement ctx st).isSome := by
  obtain ⟨stmt, sig⟩ := st
  cases hsg : ctx.statement_signer { statement := stmt, signature := sig } with
  | none => simp [Table.import_statement, hsg]
  | some signer =>
      cases stmt with
      | candidate c =>
          cases hm : ctx.is_member_of signer (ctx.candidate_group c) with
          | false =>
              simp [Table.import_statement, hsg, Table.apply_statement,
                Table.import_candidate, hm]
          | true =>
              cases hp : mapGet t.proposed_candidates signer with
              | none =>
                  simp [Table.import_statement, hsg, Table.apply_statement,
                    Table.import_candidate, hm, hp]
              | some old =>
                  by_cases hd : old.1 = ctx.candidate_digest c
                  · simp [Table.import_statement, hsg, Table.apply_statement,
                      Table.import_candidate, hm, hp, hd]
                  · obtain ⟨data, hdata⟩ :=
                      Option.isSome_iff_exists.mp (h1 signer old hp)
                    simp [Table.import_statement, hsg, Table.apply_statement,
                      Table.import_candidate, hm, hp, hd, hdata]
      | valid d =>
          rcases hvv : t.validity_vote ctx signer d true sig with ⟨t1, mm⟩
          cases mm <;>
            simp [Table.import_statement, hsg, Table.apply_statement, hvv]
      | invalid d =>
          rcases hvv : t.validity_vote ctx signer d false sig with ⟨t1, mm⟩
          cases mm <;>
            simp [Table.import_statement, hsg, Table.apply_statement, hvv]
      | available d =>
          rcases hav : t.availability_vote ctx signer d sig with ⟨t1, mm⟩
          cases mm <;>
            simp [Table.import_statement, hsg, Table.apply_statement, hav]

/-- Claim C9: in every table reachable from `create` by imports, each
`(digest, signature)` entry of `proposed_candidates` has a `CandidateData`
entry in `candidate_votes` under that digest, so the `.expect` on the
equivocating-proposal path always finds its entry and no `import_statement`
call ever panics (the `Option`-modelled import always returns `some`). -/
theorem claim_C9 {V D Cand G S : Type} [DecidableEq V] [DecidableEq D]
    (ctx : Context V D Cand G S) (t : Table V D Cand G S)
    (h : Reachable ctx t) :
    (∀ v dg s, mapGet t.proposed_candidates v = some (dg, s) →
      ∃ cd, mapGet t.candidate_votes dg = some cd) ∧
    ∀ st, (t.import_statement ctx st).isSome := by
  have hI := reachable_tableInv h
  refine ⟨fun v dg s hp => ?_, fun st => import_statement_isSome ctx t st hI.1⟩
  exact Option.isSome_iff_exists.mp (hI.1 v (dg, s) hp)

/-- Witness for C9: the empty table is reachable; its proposal entries
(vacuously) all have vote entries and no statement can make the import
panic. -/
theorem claim_C9_witness :
    Reachable testCtx (create Nat (Nat × Nat) (Nat × Nat) Nat Nat) ∧
    ((∀ v dg s,
        mapGet (create Nat (Nat × Nat) (Nat × Nat) Nat Nat).proposed_candidates
          v = some (dg, s) →
        ∃ cd, mapGet (create Nat (Nat × Nat) (Nat × Nat) Nat Nat).candidate_votes
          dg = some cd) ∧
      ∀ st, ((create Nat (Nat × Nat) (Nat × Nat) Nat Nat).import_statement testCtx
        st).isSome) :=
  ⟨Reachable.base, claim_C9 testCtx _ Reachable.base⟩

/-- Claim C10: in every reachable table, for every digest with
`CandidateData`, each validator occurs at most once in `indicated_bad_by`,
and occurs there exactly when it has an entry in `validity_votes`. -/
theorem claim_C10 {V D Cand G S : Type} [DecidableEq V] [DecidableEq D]
    (ctx : Context V D Cand G S) (t : Table V D Cand G S)
    (h : Reachable ctx t) :
    ∀ d cd, mapGet t.candidate_votes d = some cd →
      (∀ w, cd.indicated_bad_by.count w ≤ 1) ∧
      ∀ w, w ∈ cd.indicated_bad_by ↔ (mapGet cd.validity_votes w).isSome := by
  have hI := reachable_tableInv h
  intro d cd hd
  obtain ⟨hnd, hiff⟩ := hI.2 d cd hd
  exact ⟨fun w => List.nodup_iff_count_le_one.mp hnd w, hiff⟩

/-- Witness for C10: `tbl1` is reachable from `create` by importing the
proposal of `(2, 100)` signed `21`, and its single `CandidateData` satisfies
the claim. -/
theorem claim_C10_witness :
    Reachable testCtx tbl1 ∧
    ∀ d cd, mapGet tbl1.candidate_votes d = some cd →
      (∀ w, cd.indicated_bad_by.count w ≤ 1) ∧
      ∀ w, w ∈ cd.indicated_bad_by ↔ (mapGet cd.validity_votes w).isSome :=
  have hr : Reachable testCtx tbl1 :=
    Reachable.step { statement := .candidate (2, 100), signature := 21 }
      Reachable.base (by decide)
  ⟨hr, claim_C10 testCtx tbl1 hr⟩

end StatementTable
